import Mathlib

/-!
Verification development for the `transilien_bot` repository (`src/main.py`).

The single Python source file fetches SIRI stop-monitoring JSON from the
Île-de-France Mobilités API, normalizes each `MonitoredStopVisit` record into a
`Departure` value, and renders a sorted, filtered report.  This file gives a
shallow embedding of that program: Python dictionaries/lists are modelled by a
`Json` inductive, Python exceptions by the `PyErr` type returned through
`Except`, machine-level details (UTF-8, floats) are restricted to the integral
fragment the program actually exercises, and each relevant function of
`main.py` is translated into an executable Lean definition keeping its name.

Modelling notes, applying to the whole file:
* Python `dict.get(k, default)` on a non-dict raises `AttributeError`; list
  indexing out of range raises `IndexError`; these are modelled explicitly.
* `datetime.fromisoformat` is modelled on the fragment of ISO-8601 that the
  feed and the spec exercise: `YYYY-MM-DDTHH:MM:SS` with an optional
  `+HH:MM`/`-HH:MM` suffix, years from 1970 onwards.  A failure of
  `fromisoformat` is Python's `ValueError` (the spec's `MalformedTimestamp`).
* `main.py` line 51 evaluates `dt.astimezone(PARIS_TZ)`, but `PARIS_TZ` is
  bound nowhere in the file (`ZoneInfo` is imported and never used), so that
  expression raises `NameError` at runtime.  `parse_time_unpatched` models the
  source exactly as written.  For the rest of the pipeline the missing binding
  is modelled from the spec (see `paris_tz_offset`), so that the downstream
  arithmetic, status and rendering logic can be analysed.
* `float` arithmetic in `minutes_delay` (`total_seconds() / 60` then `int`)
  is exact on the integral second counts in scope and is modelled by
  truncating integer division (`truncDiv`).
-/

namespace TransilienBot

/-- Python exception kinds that the modelled fragment of `main.py` can raise.
`ValueError` is what `datetime.fromisoformat` raises on a malformed string
(the spec's `MalformedTimestamp`); `ValidationError` is pydantic's
construction-time failure; `NameError` is the lookup failure of an unbound
name. -/
inductive PyErr where
  | NameError
  | ValueError
  | AttributeError
  | IndexError
  | TypeError
  | ValidationError
deriving DecidableEq

/-- JSON values as delivered by `response.json()`.  Numbers are restricted to
integers: every numeric field the program touches (vehicle journey numbers)
is integral in the feed. -/
inductive Json where
  | null
  | bool (b : Bool)
  | num (n : Int)
  | str (s : String)
  | arr (elems : List Json)
  | obj (fields : List (String × Json))

/-- First-match association-list lookup, modelling Python dict key lookup
(keys of a JSON object are unique, so first-match is exact). -/
def jsonLookup : List (String × Json) → String → Option Json
  | [], _ => none
  | (k, v) :: rest, key => if k == key then some v else jsonLookup rest key

/-- Python `d.get(key, default)`: returns the bound value or `default` on a
dict, raises `AttributeError` on any non-dict receiver. -/
def pyDictGet (j : Json) (key : String) (dflt : Json) : Except PyErr Json :=
  match j with
  | .obj fields =>
    match jsonLookup fields key with
    | some v => .ok v
    | none => .ok dflt
  | _ => .error .AttributeError

/-- Python `xs[i]` for a non-negative index: raises `IndexError` when the list
is too short and `TypeError` when the receiver is not a list. -/
def pyIndex (j : Json) (i : Nat) : Except PyErr Json :=
  match j with
  | .arr elems =>
    match elems[i]? with
    | some v => .ok v
    | none => .error .IndexError
  | _ => .error .TypeError

/-- Python truthiness (`if not ts:`) for the JSON values in scope. -/
def pyFalsy : Json → Bool
  | .null => true
  | .bool b => !b
  | .num n => n == 0
  | .str s => s == ""
  | .arr elems => elems.isEmpty
  | .obj fields => fields.isEmpty

/-- Fuel-driven core of `pyReplace`; the fuel is the length of the remaining
text, which strictly bounds the recursion because the pattern is non-empty at
every call site. -/
def pyReplaceGo (pat rep : List Char) : Nat → List Char → List Char
  | 0, s => s
  | fuel + 1, s =>
    match s with
    | [] => []
    | c :: rest =>
      if pat.isPrefixOf s then rep ++ pyReplaceGo pat rep fuel (s.drop pat.length)
      else c :: pyReplaceGo pat rep fuel rest

/-- Python `s.replace(pat, rep)`: replaces every (non-overlapping, leftmost)
occurrence.  Restricted to non-empty patterns, which is the only way the
source uses it (`ts.replace("Z", "+00:00")`). -/
def pyReplace (s pat rep : String) : String :=
  if pat.data.isEmpty then s
  else String.mk (pyReplaceGo pat.data rep.data s.data.length s.data)

/-- ASCII lower-casing, modelling Python `str.lower()` on the ASCII status
flags of the feed. -/
def pyLower (s : String) : String :=
  String.mk (s.data.map Char.toLower)

/-- Decidable check that `pat` occurs as a contiguous substring of `s`,
modelling Python's `pat in s`. -/
def listIsInfix (pat : List Char) : List Char → Bool
  | [] => pat.isEmpty
  | c :: rest => pat.isPrefixOf (c :: rest) || listIsInfix pat rest

/-- Python `pat in s` for strings: contiguous substring containment. -/
def strContains (s pat : String) : Bool :=
  listIsInfix pat.data s.data

/-- Truncating (toward-zero) integer division, the composite of Python's exact
float division by 60 followed by `int(...)` on the integral values in scope. -/
def truncDiv (a b : Int) : Int :=
  if (a < 0 ↔ b < 0) then Int.ofNat (a.natAbs / b.natAbs)
  else -Int.ofNat (a.natAbs / b.natAbs)

/-- Decimal digits of a natural number, most significant first; the fuel is
any bound on the number of digits (callers pass `n + 1`). -/
def natDigitsGo : Nat → Nat → List Char
  | 0, _ => []
  | fuel + 1, n =>
    if n < 10 then [Nat.digitChar n]
    else natDigitsGo fuel (n / 10) ++ [Nat.digitChar (n % 10)]

/-- Python `str(n)` for a natural number. -/
def pyStrNat (n : Nat) : String :=
  String.mk (natDigitsGo (n + 1) n)

/-- Python `str(i)` / f-string rendering of an `int`. -/
def pyStrInt (i : Int) : String :=
  if i < 0 then ("-") ++ pyStrNat i.natAbs else pyStrNat i.natAbs

/-- Result of `datetime.fromisoformat`: a civil date-time plus an optional
UTC offset in seconds (`none` models a naive datetime). -/
structure PyDatetime where
  year : Nat
  month : Nat
  day : Nat
  hour : Nat
  minute : Nat
  second : Nat
  utcoffset : Option Int
deriving DecidableEq

/-- Numeric value of an ASCII digit character, `none` otherwise. -/
def digitVal (c : Char) : Option Nat :=
  if c.isDigit then some (c.toNat - 48) else none

/-- Two-digit decimal field of a timestamp. -/
def twoDigits (a b : Char) : Option Nat := do
  let x ← digitVal a
  let y ← digitVal b
  pure (10 * x + y)

/-- Four-digit decimal field of a timestamp (the year). -/
def fourDigits (a b c d : Char) : Option Nat := do
  let x ← twoDigits a b
  let y ← twoDigits c d
  pure (100 * x + y)

/-- Gregorian leap-year test. -/
def isLeap (y : Nat) : Bool :=
  (y % 4 == 0 && y % 100 != 0) || y % 400 == 0

/-- Number of days in a month of a given year. -/
def daysInMonth (y m : Nat) : Nat :=
  if m == 2 then (if isLeap y then 29 else 28)
  else if m == 4 || m == 6 || m == 9 || m == 11 then 30
  else 31

/-- Range validation performed by `datetime.fromisoformat`, restricted to
years from 1970 onwards (the domain of the feed; Python itself accepts any
year from 1). -/
def mkDatetime (y mo d h mi s : Nat) (off : Option Int) : Option PyDatetime :=
  if 1970 ≤ y ∧ 1 ≤ mo ∧ mo ≤ 12 ∧ 1 ≤ d ∧ d ≤ daysInMonth y mo ∧
      h ≤ 23 ∧ mi ≤ 59 ∧ s ≤ 59 then
    some ⟨y, mo, d, h, mi, s, off⟩
  else none

/-- Model of `datetime.fromisoformat`, on the ISO-8601 fragment the feed
uses: `YYYY-MM-DDTHH:MM:SS` optionally followed by `+HH:MM` or `-HH:MM`.
Returns `none` where Python raises `ValueError`. -/
def fromisoformat (ts : String) : Option PyDatetime :=
  match ts.data with
  | [y1, y2, y3, y4, s1, a1, a2, s2, b1, b2, sep, h1, h2, s3, m1, m2, s4, c1, c2] =>
    if s1 == '-' && s2 == '-' && sep == 'T' && s3 == ':' && s4 == ':' then do
      let y ← fourDigits y1 y2 y3 y4
      let mo ← twoDigits a1 a2
      let d ← twoDigits b1 b2
      let h ← twoDigits h1 h2
      let mi ← twoDigits m1 m2
      let s ← twoDigits c1 c2
      mkDatetime y mo d h mi s none
    else none
  | [y1, y2, y3, y4, s1, a1, a2, s2, b1, b2, sep, h1, h2, s3, m1, m2, s4, c1, c2,
     sg, o1, o2, s5, o3, o4] =>
    if s1 == '-' && s2 == '-' && sep == 'T' && s3 == ':' && s4 == ':' && s5 == ':' &&
        (sg == '+' || sg == '-') then do
      let y ← fourDigits y1 y2 y3 y4
      let mo ← twoDigits a1 a2
      let d ← twoDigits b1 b2
      let h ← twoDigits h1 h2
      let mi ← twoDigits m1 m2
      let s ← twoDigits c1 c2
      let oh ← twoDigits o1 o2
      let om ← twoDigits o3 o4
      if oh ≤ 23 && om ≤ 59 then
        let mag : Int := 3600 * oh + 60 * om
        mkDatetime y mo d h mi s (some (if sg == '+' then mag else -mag))
      else none
    else none
  | _ => none

/-- Number of Gregorian leap years in `[1, n]`. -/
def leapYearsUpTo (n : Nat) : Nat :=
  n / 4 - n / 100 + n / 400

/-- Cumulative day count of the months preceding month `m` in a non-leap
year. -/
def monthDaysBefore (m : Nat) : Nat :=
  match m with
  | 1 => 0 | 2 => 31 | 3 => 59 | 4 => 90 | 5 => 120 | 6 => 151
  | 7 => 181 | 8 => 212 | 9 => 243 | 10 => 273 | 11 => 304 | _ => 334

/-- Days elapsed from 1970-01-01 to the civil date `y-mo-d` (valid for
`y ≥ 1970`, the validated domain of `mkDatetime`). -/
def daysSince1970 (y mo d : Nat) : Nat :=
  365 * (y - 1970) + (leapYearsUpTo (y - 1) - 477) + monthDaysBefore mo +
    (if 3 ≤ mo && isLeap y then 1 else 0) + (d - 1)

/-- Seconds from 1970-01-01T00:00:00 to the civil fields of `dt`, ignoring
its UTC offset (the "wall clock" reading). -/
def naiveEpoch (dt : PyDatetime) : Int :=
  (daysSince1970 dt.year dt.month dt.day : Int) * 86400 +
    (dt.hour : Int) * 3600 + (dt.minute : Int) * 60 + (dt.second : Int)

/-- Modelled from the spec: `PARIS_TZ`, the transit system's fixed local
timezone.  `main.py` line 51 applies `dt.astimezone(PARIS_TZ)` but contains
no binding for `PARIS_TZ` (the `ZoneInfo` import is unused), so the constant
is missing from the source; the spec states that canonical times are always
in a single fixed local zone, modelled here as UTC+1 (3600 seconds). -/
def paris_tz_offset : Int := 3600

/-- Instant (UTC epoch seconds) denoted by `dt`; `dt.astimezone(tz)` preserves
this instant.  A naive `dt` is interpreted in the local zone, as
`datetime.astimezone` does for the system timezone (modelled as the same
fixed local zone). -/
def instantOf (dt : PyDatetime) : Int :=
  match dt.utcoffset with
  | some off => naiveEpoch dt - off
  | none => naiveEpoch dt - paris_tz_offset

/-- Model of `parse_time` (`main.py` lines 47-51) with the missing `PARIS_TZ`
binding modelled from the spec: falsy input yields `None`; a string is
`Z`-normalised then parsed, a parse failure raising `ValueError` (the spec's
`MalformedTimestamp`); the result is the instant of the parsed datetime,
which `astimezone` to the fixed local zone preserves.  A truthy non-string
raises `AttributeError` at `.replace`. -/
def parse_time (ts : Json) : Except PyErr (Option Int) :=
  if pyFalsy ts then .ok none
  else
    match ts with
    | .str s =>
      match fromisoformat (pyReplace s ("Z") ("+00:00")) with
      | none => .error .ValueError
      | some dt => .ok (some (instantOf dt))
    | _ => .error .AttributeError

/-- Model of `parse_time` exactly as `main.py` lines 47-51 stand: on the
line-51 expression `dt.astimezone(PARIS_TZ)` the name `PARIS_TZ` has no
binding anywhere in the file, so every input that reaches that line raises
`NameError`. -/
def parse_time_unpatched (ts : Json) : Except PyErr (Option Int) :=
  if pyFalsy ts then .ok none
  else
    match ts with
    | .str s =>
      match fromisoformat (pyReplace s ("Z") ("+00:00")) with
      | none => .error .ValueError
      | some _ => .error .NameError
    | _ => .error .AttributeError

/-- Two-digit zero-padded decimal rendering (for `%H` and `%M`). -/
def pad2 (n : Nat) : String :=
  String.mk [Nat.digitChar (n / 10 % 10), Nat.digitChar (n % 10)]

/-- Model of `format_time` (`main.py` lines 53-54): `strftime("%H:%M")` of
the instant expressed in the fixed local zone, or the `—` placeholder for
`None`. -/
def format_time (t : Option Int) : String :=
  match t with
  | none => ("—")
  | some inst =>
    let sod := ((inst + paris_tz_offset).emod 86400).toNat
    pad2 (sod / 3600) ++ (":") ++ pad2 (sod % 3600 / 60)

/-- Model of `minutes_delay` (`main.py` lines 56-59):
`int((expected - aimed).total_seconds() / 60)` when both instants are
present (truncation toward zero, no clamping), `0` otherwise. -/
def minutes_delay (aimed expected : Option Int) : Int :=
  match aimed, expected with
  | some a, some e => truncDiv (e - a) 60
  | _, _ => 0

/-- The pydantic `Departure` model (`main.py` lines 14-21).  Field order and
types follow the source: note `train_number : int` even though the parser's
fallback for it is the string `"—"`. -/
structure Departure where
  origin : String
  destination : String
  aimed_departure_time : String
  expected_departure_time : String
  status : String
  train_number : Int
  delay : Int
deriving DecidableEq

/-- Accumulator loop for `digitsToNat`. -/
def digitsToNatGo : List Char → Nat → Option Nat
  | [], acc => some acc
  | c :: rest, acc =>
    match digitVal c with
    | some d => digitsToNatGo rest (10 * acc + d)
    | none => none

/-- Value of a non-empty all-digit character list, `none` otherwise. -/
def digitsToNat : List Char → Option Nat
  | [] => none
  | cs => digitsToNatGo cs 0

/-- Pydantic validation of an `int` field: an integer passes, a string is
coerced when it spells an integer, everything else (in the fragment in
scope) fails with `ValidationError`.  In particular the parser's `"—"`
placeholder fails. -/
def pydantic_int (j : Json) : Except PyErr Int :=
  match j with
  | .num n => .ok n
  | .str s =>
    match s.data with
    | [] => .error .ValidationError
    | c :: rest =>
      let digits := if c == '-' || c == '+' then rest else c :: rest
      match digitsToNat digits with
      | some n => .ok (if c == '-' then -Int.ofNat n else Int.ofNat n)
      | none => .error .ValidationError
  | _ => .error .ValidationError

/-- Pydantic validation of a `str` field: strings pass unchanged, other JSON
values fail with `ValidationError`. -/
def pydantic_str (j : Json) : Except PyErr String :=
  match j with
  | .str s => .ok s
  | _ => .error .ValidationError

/-- Evaluation of the `origin=` argument (`main.py` line 77):
`mvj.get("DirectionRef", {}).get("value", "—")`. -/
def directionValue (mvj : Json) : Except PyErr Json :=
  match pyDictGet mvj ("DirectionRef") (Json.obj []) with
  | .error e => .error e
  | .ok dr => pyDictGet dr ("value") (Json.str ("—"))

/-- Evaluation of the `destination=` argument (`main.py` line 78):
`mvj.get("DestinationName", [{}])[0].get("value", "—")`. -/
def destinationValue (mvj : Json) : Except PyErr Json :=
  match pyDictGet mvj ("DestinationName") (Json.arr [Json.obj []]) with
  | .error e => .error e
  | .ok dn =>
    match pyIndex dn 0 with
    | .error e => .error e
    | .ok first => pyDictGet first ("value") (Json.str ("—"))

/-- Evaluation of the `train_number=` argument (`main.py` line 82):
`mvj.get("VehicleJourneyName", [{}])[0].get("value", "—")`. -/
def vehicleJourneyValue (mvj : Json) : Except PyErr Json :=
  match pyDictGet mvj ("VehicleJourneyName") (Json.arr [Json.obj []]) with
  | .error e => .error e
  | .ok vj =>
    match pyIndex vj 0 with
    | .error e => .error e
    | .ok first => pyDictGet first ("value") (Json.str ("—"))

/-- One status flag: `call.get(key, "").lower()` (`main.py` lines 68-69);
`.lower()` on a truthy non-string raises `AttributeError`. -/
def statusFlag (call : Json) (key : String) : Except PyErr String :=
  match pyDictGet call key (Json.str ("")) with
  | .error e => .error e
  | .ok j =>
    match j with
    | .str s => .ok (pyLower s)
    | _ => .error .AttributeError

/-- The two nested lookups opening the loop body (`main.py` lines 62-63):
`visit.get("MonitoredVehicleJourney", {})` then
`mvj.get("MonitoredCall", {})`. -/
def visitCall (visit : Json) : Except PyErr Json :=
  match pyDictGet visit ("MonitoredVehicleJourney") (Json.obj []) with
  | .error e => .error e
  | .ok mvj => pyDictGet mvj ("MonitoredCall") (Json.obj [])

/-- Pydantic construction of `Departure(...)` (`main.py` lines 76-84): the
already-evaluated arguments are validated against the declared field types
(`origin`/`destination` as `str`, `train_number` as `int`; the formatted
times, status and delay are already of the declared shapes). -/
def mkDeparture (originV destV : Json) (aimed expected status : String)
    (trainV : Json) (delay : Int) : Except PyErr Departure :=
  match pydantic_str originV with
  | .error e => .error e
  | .ok origin =>
    match pydantic_str destV with
    | .error e => .error e
    | .ok destination =>
      match pydantic_int trainV with
      | .error e => .error e
      | .ok train_number =>
        .ok ⟨origin, destination, aimed, expected, status, train_number, delay⟩

/-- Timestamp argument of `parse_time` inside the loop: `call.get(key)`
(one-argument `dict.get`, whose default is `None`) followed by `parse_time`. -/
def callTime (call : Json) (key : String) : Except PyErr (Option Int) :=
  match pyDictGet call key Json.null with
  | .error e => .error e
  | .ok ts => parse_time ts

/-- Later half of the loop body (`main.py` lines 68-85), once `mvj` and
`call` are bound: lower-case the status flags, derive cancellation, delay
and status, evaluate the constructor arguments in source order, and validate
the `Departure`. -/
def parseVisitFields (mvj call : Json) (aimed_dep expected_dep : Option Int) :
    Except PyErr Departure :=
  match statusFlag call ("DepartureStatus") with
  | .error e => .error e
  | .ok status_dep =>
    match statusFlag call ("ArrivalStatus") with
    | .error e => .error e
    | .ok status_arr =>
      let cancelled := strContains status_dep ("cancel") || strContains status_arr ("cancel")
      let delay := minutes_delay aimed_dep expected_dep
      match directionValue mvj with
      | .error e => .error e
      | .ok originV =>
        match destinationValue mvj with
        | .error e => .error e
        | .ok destV =>
          match vehicleJourneyValue mvj with
          | .error e => .error e
          | .ok trainV =>
            mkDeparture originV destV
              (format_time aimed_dep) (format_time expected_dep)
              (if cancelled then ("Cancelled")
               else if delay == 0 then ("On time") else ("Delayed"))
              trainV delay

/-- Body of the `for visit in visits` loop (`main.py` lines 61-85): extract
`mvj` and `call`, parse both timestamps, then continue with
`parseVisitFields`. -/
def parseVisit (visit : Json) : Except PyErr Departure :=
  match pyDictGet visit ("MonitoredVehicleJourney") (Json.obj []) with
  | .error e => .error e
  | .ok mvj =>
    match pyDictGet mvj ("MonitoredCall") (Json.obj []) with
    | .error e => .error e
    | .ok call =>
      match callTime call ("AimedDepartureTime") with
      | .error e => .error e
      | .ok aimed_dep =>
        match callTime call ("ExpectedDepartureTime") with
        | .error e => .error e
        | .ok expected_dep => parseVisitFields mvj call aimed_dep expected_dep

/-- The nested extraction of the visit list (`main.py` lines 40-45):
`data.get("Siri", {}).get("ServiceDelivery", {})
     .get("StopMonitoringDelivery", [{}])[0].get("MonitoredStopVisit", [])`.
Note the `[0]` indexing applies to whatever `StopMonitoringDelivery` is bound
to, so a present-but-empty array raises `IndexError`. -/
def getVisits (data : Json) : Except PyErr Json :=
  match pyDictGet data ("Siri") (Json.obj []) with
  | .error e => .error e
  | .ok siri =>
    match pyDictGet siri ("ServiceDelivery") (Json.obj []) with
    | .error e => .error e
    | .ok sd =>
      match pyDictGet sd ("StopMonitoringDelivery") (Json.arr [Json.obj []]) with
      | .error e => .error e
      | .ok smd =>
        match pyIndex smd 0 with
        | .error e => .error e
        | .ok first => pyDictGet first ("MonitoredStopVisit") (Json.arr [])

/-- The loop `for visit in visits: departures.append(...)`: visits are
processed in order and the first raised exception aborts the whole loop. -/
def parseVisits : List Json → Except PyErr (List Departure)
  | [] => .ok []
  | v :: rest =>
    match parseVisit v with
    | .error e => .error e
    | .ok d =>
      match parseVisits rest with
      | .error e => .error e
      | .ok ds => .ok (d :: ds)

/-- Model of `fetch_next_departures` (`main.py` lines 24-86) applied to the
JSON document already returned by the HTTP layer (the transport itself is an
external boundary, modelled by `main`'s `fetchResult` argument): extract the
visit list and build one `Departure` per visit, in upstream order.
Iterating over a non-list raises `TypeError`. -/
def fetch_next_departures (data : Json) : Except PyErr (List Departure) :=
  match getVisits data with
  | .error e => .error e
  | .ok visits =>
    match visits with
    | .arr vs => parseVisits vs
    | _ => .error .TypeError

/-- The `emoji_status` dict lookup with `''` default
(`main.py` lines 89-93 and 99). -/
def emoji_status (status : String) : String :=
  if status == ("On time") then ("✅")
  else if status == ("Cancelled") then ("❌")
  else if status == ("Delayed") then ("⏰") else ("")

/-- First `msg +=` of the render loop (`main.py` line 99):
glyph, train identifier and destination. -/
def departureHead (d : Departure) : String :=
  emoji_status d.status ++ (" Train ") ++ pyStrInt d.train_number ++
    (" to ") ++ d.destination ++ (" | ")

/-- Second `msg +=` of the render loop (`main.py` line 100): the
`aimed → expected (+delay min)` form when `delay > 0`, otherwise the single
aimed time followed by a trailing space. -/
def departureLine (d : Departure) : String :=
  departureHead d ++
    (if d.delay > 0 then
      d.aimed_departure_time ++ (" → ") ++ d.expected_departure_time ++
        (" (+") ++ pyStrInt d.delay ++ (" min)")
    else d.aimed_departure_time ++ (" "))

/-- Python `sep.join(lines)`. -/
def pyJoin (sep : String) : List String → String
  | [] => ("")
  | [line] => line
  | line :: rest => line ++ sep ++ pyJoin sep rest

/-- Model of `format_departure_info` (`main.py` lines 88-103): one rendered
line per departure, joined by newlines. -/
def format_departure_info (departures : List Departure) : String :=
  pyJoin ("\n") (departures.map departureLine)

/-- Sort key relation of `main.py` line 120: ascending comparison of the
`expected_departure_time` strings. -/
def depLe (a b : Departure) : Prop :=
  a.expected_departure_time ≤ b.expected_departure_time

instance : DecidableRel depLe := fun a b =>
  inferInstanceAs (Decidable (a.expected_departure_time ≤ b.expected_departure_time))

instance : IsTotal Departure depLe :=
  ⟨fun a b => le_total a.expected_departure_time b.expected_departure_time⟩

instance : IsTrans Departure depLe :=
  ⟨fun _ _ _ h h' => le_trans h h'⟩

/-- Model of `sorted(next_departures, key=lambda x: x.expected_departure_time)`
(`main.py` line 120).  Python's `sorted` is the stable ascending sort by the
key; a stable sort by a total preorder is unique as a function of its input,
so it is modelled by stable insertion sort with the key relation `depLe`. -/
def sortDepartures (departures : List Departure) : List Departure :=
  List.insertionSort depLe departures

/-- The destination filter of `main.py` lines 126-128. -/
def filterDestination (departures : List Departure) : List Departure :=
  departures.filter (fun d => d.destination == ("Paris Saint-Lazare"))

/-- Environment-variable configuration read by `main`
(`IDF_API_KEY`, `SLACK_BOT_TOKEN`, `CHANNEL_ID`); `none` models an unset
variable. -/
structure Env where
  idfApiKey : Option String
  slackToken : Option String
  channelId : Option String

/-- Python truthiness of `getenv(...)`: unset (`None`) or empty string. -/
def envFalsy : Option String → Bool
  | none => true
  | some s => s == ""

/-- Outcome of the external HTTP steps of `fetch_next_departures`
(`main.py` lines 35-37), the transport boundary of the model:
`requests.get` can raise a connection-level failure (`ConnectionError`,
`Timeout`, ... — not subclasses of `HTTPError`), `raise_for_status` raises
`requests.HTTPError` on a non-2xx status, `response.json()` raises
`JSONDecodeError` on an unparseable body, and otherwise a JSON document is
returned. -/
inductive FetchOutcome where
  | connectionFailure (msg : String)
  | httpError (msg : String)
  | invalidJson (msg : String)
  | body (data : Json)

/-- An exception propagating out of the `fetch_next_departures` call at
`main.py` line 114.  Only `httpError` is `requests.HTTPError`, the sole
class caught by the `except` clause at line 115; the other three escape
`main` uncaught. -/
inductive PyException where
  | httpError (msg : String)
  | connectionFailure (msg : String)
  | invalidJson (msg : String)
  | parseError (e : PyErr)
deriving DecidableEq

/-- The full `fetch_next_departures(api_key, station_code)` call as seen by
`main`: a transport-step failure propagates as the corresponding exception,
and on a successful fetch the parse of the body (lines 39-86) either raises
one of its `PyErr` exceptions or returns the departure list. -/
def fetchDepartures (outcome : FetchOutcome) : Except PyException (List Departure) :=
  match outcome with
  | .connectionFailure m => .error (.connectionFailure m)
  | .httpError m => .error (.httpError m)
  | .invalidJson m => .error (.invalidJson m)
  | .body data =>
    match fetch_next_departures data with
    | .error e => .error (.parseError e)
    | .ok ds => .ok ds

/-- Observable outcome of one run of the script: console lines in order,
whether the HTTP fetch was attempted, whether the Slack notifier was
invoked, which exception (if any) escaped `main` uncaught, and the process
exit status.  `main` never calls `sys.exit`: a normal return exits with
status 0, while an uncaught exception makes the interpreter print a
traceback (to stderr, not via `console.print`) and exit with status 1. -/
structure MainSt where
  printed : List String
  fetchAttempted : Bool
  notifierInvoked : Bool
  uncaughtException : Option PyException
  exitCode : Nat
deriving DecidableEq

/-- Append one `console.print` line. -/
def printLine (st : MainSt) (line : String) : MainSt :=
  { st with printed := st.printed ++ [line] }

/-- The `IDF_API_KEY` error line (`main.py` line 109). -/
def apiKeyErrorLine : String :=
  ("[red]Error: IDF_API_KEY not found in environment variables.[/red]")

/-- The HTTP error line (`main.py` line 116). -/
def httpErrorLine (e : String) : String :=
  ("[red]HTTP Error: ") ++ e ++ ("[/red]")

/-- The train-count line (`main.py` line 130). -/
def countLine (n : Nat) : String :=
  ("\n[bold]Number of Trains to Paris Saint-Lazare:[/bold] ") ++ pyStrNat n

/-- Model of `main` (`main.py` lines 106-163) as a Python-style body with
early exits: `throw st` models leaving `main` with final state `st`, whether
by `return` or by an exception escaping it.  The transport boundary is the
`fetched` argument; the `try`/`except` of lines 113-117 catches exactly
`requests.HTTPError` (printing the message and returning, exit 0), while any
other exception from the fetch-and-parse call — connection failures, invalid
JSON bodies, and the parse exceptions of lines 39-86 — escapes `main`
uncaught, exiting with status 1.  The statements after the line-134
`return` — the whole Slack notification block of lines 136-162 — are
modelled where they stand, after the `throw`. -/
def mainBody (env : Env) (fetched : FetchOutcome) :
    Except MainSt MainSt := do
  let st : MainSt := ⟨[], false, false, none, 0⟩
  if envFalsy env.idfApiKey then
    throw (printLine st apiKeyErrorLine)
  let st : MainSt := { st with fetchAttempted := true }
  let next_departures ← (match fetchDepartures fetched with
    | .error (.httpError e) => throw (printLine st (httpErrorLine e))
    | .error e => throw { st with uncaughtException := some e, exitCode := 1 }
    | .ok ds => pure ds)
  let sorted_trains := sortDepartures next_departures
  let st := printLine st (format_departure_info sorted_trains)
  let filtered_trains := filterDestination sorted_trains
  let st := printLine st (countLine filtered_trains.length)
  let st := printLine st (format_departure_info filtered_trains)
  throw st
  if envFalsy env.slackToken then
    throw (printLine st ("[red]Error: SLACK_BOT_TOKEN not found in environment variables.[/red]"))
  if envFalsy env.channelId then
    throw (printLine st ("[red]Error: CHANNEL_ID not found in environment variables.[/red]"))
  pure { st with notifierInvoked := true }

/-- Final state of one run of `main`: the body's result whether it exited
early or fell through. -/
def mainRun (env : Env) (fetched : FetchOutcome) : MainSt :=
  match mainBody env fetched with
  | .ok st => st
  | .error st => st

/-! ### Concrete fixtures

Concrete JSON documents used by witnesses and counterexamples; timestamps are
the ones of the spec's worked example. -/

/-- Full SIRI nesting around a list of visit records. -/
def docOf (visits : List Json) : Json :=
  Json.obj [(("Siri"), Json.obj [(("ServiceDelivery"), Json.obj
    [(("StopMonitoringDelivery"), Json.arr [Json.obj
      [(("MonitoredStopVisit"), Json.arr visits)]])])])]

/-- A `MonitoredCall` object with both timestamps and optional extra flags. -/
def mcall (aimed expected : String) (extra : List (String × Json)) : Json :=
  Json.obj ([(("AimedDepartureTime"), Json.str aimed),
             (("ExpectedDepartureTime"), Json.str expected)] ++ extra)

/-- A `MonitoredVehicleJourney` with destination `Paris Saint-Lazare` and
vehicle journey number `123`. -/
def mvjOf (call : Json) : Json :=
  Json.obj [(("MonitoredCall"), call),
            (("DestinationName"),
              Json.arr [Json.obj [(("value"), Json.str ("Paris Saint-Lazare"))]]),
            (("VehicleJourneyName"), Json.arr [Json.obj [(("value"), Json.num 123)]])]

/-- Visit whose expected departure precedes the aimed one by 5 minutes. -/
def visitNeg : Json :=
  Json.obj [(("MonitoredVehicleJourney"),
    mvjOf (mcall ("2024-01-01T08:05:00Z") ("2024-01-01T08:00:00Z") []))]

/-- The `Departure` the parser builds from `visitNeg`. -/
def depNeg : Departure :=
  ⟨("—"), ("Paris Saint-Lazare"), ("09:05"), ("09:00"), ("Delayed"), 123, -5⟩

/-- Visit flagged `DepartureStatus = "cancelled"` that is also 5 minutes
late. -/
def visitCancelled : Json :=
  Json.obj [(("MonitoredVehicleJourney"),
    mvjOf (mcall ("2024-01-01T08:00:00Z") ("2024-01-01T08:05:00Z")
      [(("DepartureStatus"), Json.str ("cancelled"))]))]

/-- The `Departure` the parser builds from `visitCancelled`. -/
def depCancelled : Departure :=
  ⟨("—"), ("Paris Saint-Lazare"), ("09:00"), ("09:05"), ("Cancelled"), 123, 5⟩

/-- The spec's worked example: aimed `08:00:00Z`, expected `08:05:00Z`, no
cancellation flags. -/
def visitDelayed : Json :=
  Json.obj [(("MonitoredVehicleJourney"),
    mvjOf (mcall ("2024-01-01T08:00:00Z") ("2024-01-01T08:05:00Z") []))]

/-- The `Departure` the parser builds from `visitDelayed`. -/
def depDelayed : Departure :=
  ⟨("—"), ("Paris Saint-Lazare"), ("09:00"), ("09:05"), ("Delayed"), 123, 5⟩

/-- Document whose `StopMonitoringDelivery` is present but an empty array. -/
def docEmptySMD : Json :=
  Json.obj [(("Siri"), Json.obj [(("ServiceDelivery"),
    Json.obj [(("StopMonitoringDelivery"), Json.arr [])])])]

/-! ### Claim theorems -/

/-- C1: for null/empty input `parse_time` returns `None`, and an unparseable
non-empty string raises `ValueError` (`MalformedTimestamp`); but a valid
ISO-8601 timestamp with `Z` suffix does **not** return a converted instant:
it raises `NameError`, because line 51 references `PARIS_TZ`, which is bound
nowhere in `main.py`.  So a failure other than `MalformedTimestamp` occurs on
exactly the inputs the claim says must succeed. -/
theorem parse_time_unbound_tz_failure :
    parse_time_unpatched Json.null = .ok none ∧
    parse_time_unpatched (Json.str ("")) = .ok none ∧
    parse_time_unpatched (Json.str ("2024-01-01T08:00:00Z")) = .error .NameError ∧
    parse_time_unpatched (Json.str ("not-a-time")) = .error .ValueError :=
  ⟨rfl, rfl, rfl, rfl⟩

/-- C4: a visit with no vehicle journey identifier does *not* yield a
`Departure` rendering the placeholder: the extraction falls back to the
string `"—"`, which fails pydantic's validation of the `train_number : int`
field, so parsing the visit (and the whole document) aborts with
`ValidationError`. -/
theorem missing_vehicle_journey_aborts :
    parseVisit (Json.obj []) = .error .ValidationError ∧
    fetch_next_departures (docOf [Json.obj []]) = .error .ValidationError :=
  ⟨rfl, rfl⟩

/-- C10: when `Siri.ServiceDelivery.StopMonitoringDelivery` is present and
bound to an empty array, the `[0]` index of `main.py` line 43 raises
`IndexError`: tolerance for absent structures does not extend to this
present-but-empty array. -/
theorem empty_delivery_array_index_error
    (fields siriFields sdFields : List (String × Json))
    (h1 : jsonLookup fields ("Siri") = some (Json.obj siriFields))
    (h2 : jsonLookup siriFields ("ServiceDelivery") = some (Json.obj sdFields))
    (h3 : jsonLookup sdFields ("StopMonitoringDelivery") = some (Json.arr [])) :
    fetch_next_departures (Json.obj fields) = .error .IndexError := by
  simp [fetch_next_departures, getVisits, pyDictGet, h1, h2, h3, pyIndex]

/-- Witness for C10's theorem at the concrete document `docEmptySMD`. -/
theorem empty_delivery_array_index_error_witness :
    jsonLookup [(("Siri"), Json.obj [(("ServiceDelivery"),
        Json.obj [(("StopMonitoringDelivery"), Json.arr [])])])] ("Siri") =
      some (Json.obj [(("ServiceDelivery"),
        Json.obj [(("StopMonitoringDelivery"), Json.arr [])])]) ∧
    fetch_next_departures docEmptySMD = .error .IndexError :=
  ⟨rfl, empty_delivery_array_index_error _ _ _ rfl rfl rfl⟩

/-- C6: parsing is total over missing optional nested structures: a document
missing the `Siri`, `ServiceDelivery`, `StopMonitoringDelivery` or
`MonitoredStopVisit` level entirely — in particular the empty JSON document —
yields the empty `Departure` list and no error. -/
theorem parse_total_on_missing_levels :
    (∀ fields, jsonLookup fields ("Siri") = none →
      fetch_next_departures (Json.obj fields) = .ok []) ∧
    (∀ fields siriFields,
      jsonLookup fields ("Siri") = some (Json.obj siriFields) →
      jsonLookup siriFields ("ServiceDelivery") = none →
      fetch_next_departures (Json.obj fields) = .ok []) ∧
    (∀ fields siriFields sdFields,
      jsonLookup fields ("Siri") = some (Json.obj siriFields) →
      jsonLookup siriFields ("ServiceDelivery") = some (Json.obj sdFields) →
      jsonLookup sdFields ("StopMonitoringDelivery") = none →
      fetch_next_departures (Json.obj fields) = .ok []) ∧
    (∀ fields siriFields sdFields smdFields rest,
      jsonLookup fields ("Siri") = some (Json.obj siriFields) →
      jsonLookup siriFields ("ServiceDelivery") = some (Json.obj sdFields) →
      jsonLookup sdFields ("StopMonitoringDelivery") =
        some (Json.arr (Json.obj smdFields :: rest)) →
      jsonLookup smdFields ("MonitoredStopVisit") = none →
      fetch_next_departures (Json.obj fields) = .ok []) := by
  refine ⟨?_, ?_, ?_, ?_⟩
  · intro fields h
    simp [fetch_next_departures, getVisits, pyDictGet, h, pyIndex, jsonLookup, parseVisits]
  · intro fields siriFields h1 h2
    simp [fetch_next_departures, getVisits, pyDictGet, h1, h2, pyIndex, jsonLookup, parseVisits]
  · intro fields siriFields sdFields h1 h2 h3
    simp [fetch_next_departures, getVisits, pyDictGet, h1, h2, h3, pyIndex, jsonLookup,
      parseVisits]
  · intro fields siriFields sdFields smdFields rest h1 h2 h3 h4
    simp [fetch_next_departures, getVisits, pyDictGet, h1, h2, h3, h4, pyIndex, jsonLookup,
      parseVisits]

/-- Witness for C6's theorem at the empty JSON document. -/
theorem parse_total_on_missing_levels_witness :
    jsonLookup [] ("Siri") = none ∧ fetch_next_departures (Json.obj []) = .ok [] :=
  ⟨rfl, parse_total_on_missing_levels.1 [] rfl⟩

/-- C2 counterexample: the parser produces a `Departure` whose `delay` is
negative (expected 5 minutes before aimed gives `delay = -5`, not
`max(0, ...) = 0`), refuting "the delay field is a non-negative integer". -/
theorem delay_negative_counterexample :
    fetch_next_departures (docOf [visitNeg]) = .ok [depNeg] ∧ depNeg.delay < 0 :=
  ⟨rfl, by decide⟩

/-- C2 as amended: for every `Departure` the parser produces, `delay` equals
`minutes_delay` of the two parsed instants — the toward-zero-truncated whole
minutes of `expected − aimed` when both are present (with no clamping, so it
may be negative), and `0` when either is absent. -/
theorem delay_from_timestamps (v : Json) (d : Departure)
    (h : parseVisit v = .ok d) :
    ∃ call aimed expected,
      visitCall v = .ok call ∧
      callTime call ("AimedDepartureTime") = .ok aimed ∧
      callTime call ("ExpectedDepartureTime") = .ok expected ∧
      d.delay = minutes_delay aimed expected ∧
      (∀ a e, aimed = some a → expected = some e → d.delay = truncDiv (e - a) 60) ∧
      ((aimed = none ∨ expected = none) → d.delay = 0) := by
  unfold parseVisit at h
  split at h
  · exact Except.noConfusion h
  next mvj hmvj =>
  split at h
  · exact Except.noConfusion h
  next call hcall =>
  split at h
  · exact Except.noConfusion h
  next aimed haimed =>
  split at h
  · exact Except.noConfusion h
  next expected hexpected =>
  have hdelay : d.delay = minutes_delay aimed expected := by
    unfold parseVisitFields at h
    split at h
    · exact Except.noConfusion h
    next sdep hsdep =>
    split at h
    · exact Except.noConfusion h
    next sarr hsarr =>
    split at h
    · exact Except.noConfusion h
    next originV horig =>
    split at h
    · exact Except.noConfusion h
    next destV hdest =>
    split at h
    · exact Except.noConfusion h
    next trainV htrain =>
    unfold mkDeparture at h
    split at h
    · exact Except.noConfusion h
    split at h
    · exact Except.noConfusion h
    split at h
    · exact Except.noConfusion h
    injection h with h'
    subst h'
    rfl
  refine ⟨call, aimed, expected, ?_, haimed, hexpected, hdelay, ?_, ?_⟩
  · simp [visitCall, hmvj, hcall]
  · intro a e ha he
    subst ha; subst he
    simpa [minutes_delay] using hdelay
  · intro hne
    rcases hne with h1 | h1 <;> subst h1
    · cases expected <;> simpa [minutes_delay] using hdelay
    · cases aimed <;> simpa [minutes_delay] using hdelay

/-- Witness for C2's amended theorem at the spec's worked example
(aimed `08:00:00Z`, expected `08:05:00Z`, `delay = 5`). -/
theorem delay_from_timestamps_witness :
    parseVisit visitDelayed = .ok depDelayed ∧
    (∃ call aimed expected,
      visitCall visitDelayed = .ok call ∧
      callTime call ("AimedDepartureTime") = .ok aimed ∧
      callTime call ("ExpectedDepartureTime") = .ok expected ∧
      depDelayed.delay = minutes_delay aimed expected ∧
      (∀ a e, aimed = some a → expected = some e →
        depDelayed.delay = truncDiv (e - a) 60) ∧
      ((aimed = none ∨ expected = none) → depDelayed.delay = 0)) :=
  ⟨rfl, delay_from_timestamps visitDelayed depDelayed rfl⟩

/-- C3 counterexample: a non-cancelled visit whose expected time precedes the
aimed one gets `status = "Delayed"` with `delay = -5`, refuting "status is
Delayed if and only if delay > 0". -/
theorem status_delayed_negative_counterexample :
    parseVisit visitNeg = .ok depNeg ∧
    depNeg.status = ("Delayed") ∧ ¬ depNeg.delay > 0 :=
  ⟨rfl, rfl, by decide⟩

/-- C3 as amended: for every parsed visit, `status = "Cancelled"` exactly when
a lowercased status flag contains `"cancel"` (overriding any delay), and for a
non-cancelled record `status = "On time"` iff `delay = 0` and
`status = "Delayed"` iff `delay ≠ 0` (not `delay > 0`: a negative delay is
also rendered `"Delayed"`). -/
theorem status_rules (v : Json) (d : Departure)
    (h : parseVisit v = .ok d) :
    ∃ call sdep sarr,
      visitCall v = .ok call ∧
      statusFlag call ("DepartureStatus") = .ok sdep ∧
      statusFlag call ("ArrivalStatus") = .ok sarr ∧
      (d.status = ("Cancelled") ↔
        (strContains sdep ("cancel") || strContains sarr ("cancel")) = true) ∧
      ((strContains sdep ("cancel") || strContains sarr ("cancel")) = false →
        ((d.status = ("On time") ↔ d.delay = 0) ∧
         (d.status = ("Delayed") ↔ d.delay ≠ 0))) := by
  unfold parseVisit at h
  split at h
  · exact Except.noConfusion h
  next mvj hmvj =>
  split at h
  · exact Except.noConfusion h
  next call hcall =>
  split at h
  · exact Except.noConfusion h
  next aimed haimed =>
  split at h
  · exact Except.noConfusion h
  next expected hexpected =>
  unfold parseVisitFields at h
  split at h
  · exact Except.noConfusion h
  next sdep hsdep =>
  split at h
  · exact Except.noConfusion h
  next sarr hsarr =>
  split at h
  · exact Except.noConfusion h
  next originV horig =>
  split at h
  · exact Except.noConfusion h
  next destV hdest =>
  split at h
  · exact Except.noConfusion h
  next trainV htrain =>
  unfold mkDeparture at h
  split at h
  · exact Except.noConfusion h
  split at h
  · exact Except.noConfusion h
  split at h
  · exact Except.noConfusion h
  injection h with h'
  subst h'
  refine ⟨call, sdep, sarr, by simp [visitCall, hmvj, hcall], hsdep, hsarr, ?_, ?_⟩
  · cases hc : strContains sdep ("cancel") || strContains sarr ("cancel") <;> simp [hc]
    split <;> simp_all
  · intro hc
    simp only [hc]
    constructor
    · cases h0 : minutes_delay aimed expected == 0 <;> simp_all
    · cases h0 : minutes_delay aimed expected == 0 <;> simp_all

/-- Witness for C3's theorem at the cancelled-and-late visit. -/
theorem status_rules_witness :
    parseVisit visitCancelled = .ok depCancelled ∧
    (∃ call sdep sarr,
      visitCall visitCancelled = .ok call ∧
      statusFlag call ("DepartureStatus") = .ok sdep ∧
      statusFlag call ("ArrivalStatus") = .ok sarr ∧
      (depCancelled.status = ("Cancelled") ↔
        (strContains sdep ("cancel") || strContains sarr ("cancel")) = true) ∧
      ((strContains sdep ("cancel") || strContains sarr ("cancel")) = false →
        ((depCancelled.status = ("On time") ↔ depCancelled.delay = 0) ∧
         (depCancelled.status = ("Delayed") ↔ depCancelled.delay ≠ 0)))) :=
  ⟨rfl, status_rules visitCancelled depCancelled rfl⟩

/-! ### String containment helpers for the renderer -/

/-- Appending strings concatenates their character data. -/
theorem strData_append (s t : String) : (s ++ t).data = s.data ++ t.data := by
  cases s; cases t; rfl

/-- The executable substring check agrees with `List.IsInfix`. -/
theorem listIsInfix_iff (pat : List Char) (l : List Char) :
    listIsInfix pat l = true ↔ pat <:+: l := by
  induction l with
  | nil => simp [listIsInfix, List.isEmpty_iff, List.infix_nil]
  | cons c rest ih =>
    simp [listIsInfix, List.infix_cons_iff, List.isPrefixOf_iff_prefix, ih]

/-- `strContains` agrees with substring containment on character data. -/
theorem strContains_iff (s pat : String) :
    strContains s pat = true ↔ pat.data <:+: s.data :=
  listIsInfix_iff pat.data s.data

/-- A list is an infix of itself followed by anything. -/
theorem infix_self_append {α : Type} (l r : List α) : l <:+: l ++ r :=
  ⟨[], r, by simp⟩

/-- Infixes are preserved by prepending. -/
theorem infix_append_left {α : Type} (l₁ : List α) {pat l₂ : List α}
    (h : pat <:+: l₂) : pat <:+: l₁ ++ l₂ := by
  obtain ⟨s, t, rfl⟩ := h
  exact ⟨l₁ ++ s, t, by simp⟩

/-- C5 counterexample: a cancelled departure with positive delay is rendered
in the two-time `aimed → expected (+delay min)` form, not with a single time:
the renderer branches on `delay > 0` alone, so "a single time when cancelled"
fails. -/
theorem render_cancelled_two_times_counterexample :
    fetch_next_departures (docOf [visitCancelled]) = .ok [depCancelled] ∧
    depCancelled.status = ("Cancelled") ∧
    format_departure_info [depCancelled] =
      ("❌ Train 123 to Paris Saint-Lazare | 09:00 → 09:05 (+5 min)") ∧
    strContains (format_departure_info [depCancelled]) (" → ") = true :=
  ⟨rfl, rfl, rfl, rfl⟩

/-- C5 as amended: the render is one line per departure joined by newlines
(empty list gives the empty string); each line contains the status glyph, the
train identifier and the destination; and a line shows the
`aimed → expected (+delay min)` form exactly when `delay > 0` — regardless of
status, so a cancelled record with positive delay also gets the two-time
form — and the single aimed time otherwise. -/
theorem render_structure (ds : List Departure) :
    format_departure_info ds = pyJoin ("\n") (ds.map departureLine) ∧
    (ds = [] → format_departure_info ds = ("")) ∧
    (ds.map departureLine).length = ds.length ∧
    ∀ d, d ∈ ds →
      strContains (departureLine d) (emoji_status d.status) = true ∧
      strContains (departureLine d) (pyStrInt d.train_number) = true ∧
      strContains (departureLine d) d.destination = true ∧
      (0 < d.delay → departureLine d =
        departureHead d ++ (d.aimed_departure_time ++ (" → ") ++
          d.expected_departure_time ++ (" (+") ++ pyStrInt d.delay ++ (" min)"))) ∧
      (d.delay ≤ 0 → departureLine d =
        departureHead d ++ (d.aimed_departure_time ++ (" "))) := by
  refine ⟨rfl, ?_, by simp, ?_⟩
  · rintro rfl; rfl
  · intro d _
    refine ⟨?_, ?_, ?_, ?_, ?_⟩
    · rw [strContains_iff]
      simp only [departureLine, departureHead, strData_append, List.append_assoc]
      exact infix_self_append _ _
    · rw [strContains_iff]
      simp only [departureLine, departureHead, strData_append, List.append_assoc]
      exact infix_append_left _ (infix_append_left _ (infix_self_append _ _))
    · rw [strContains_iff]
      simp only [departureLine, departureHead, strData_append, List.append_assoc]
      exact infix_append_left _ (infix_append_left _ (infix_append_left _
        (infix_append_left _ (infix_self_append _ _))))
    · intro hpos
      simp [departureLine, hpos]
    · intro hle
      simp [departureLine, not_lt.mpr hle]

/-- Witness for C5's theorem at the spec's worked delayed example: its line is
rendered in the `(+5 min)` form. -/
theorem render_structure_witness :
    0 < depDelayed.delay ∧
    departureLine depDelayed = departureHead depDelayed ++
      (depDelayed.aimed_departure_time ++ (" → ") ++
       depDelayed.expected_departure_time ++ (" (+") ++
       pyStrInt depDelayed.delay ++ (" min)")) :=
  ⟨by decide, ((render_structure [depDelayed]).2.2.2 depDelayed (by simp)).2.2.2.1 (by decide)⟩

/-! ### Sorting (stability, idempotence) -/

/-- Stability of one ordered insertion with respect to the sort key: the
key-`k` sublist gains `x` at its front when `x` has key `k` and is unchanged
otherwise. -/
theorem filter_orderedInsert_key (k : String) (x : Departure) (l : List Departure) :
    (List.orderedInsert depLe x l).filter (fun d => d.expected_departure_time == k) =
      if x.expected_departure_time == k
      then x :: l.filter (fun d => d.expected_departure_time == k)
      else l.filter (fun d => d.expected_departure_time == k) := by
  induction l with
  | nil => simp [List.orderedInsert, List.filter_cons]
  | cons y ys ih =>
    by_cases hr : depLe x y
    · rw [List.orderedInsert, if_pos hr]
      by_cases hx : x.expected_departure_time == k <;>
        simp [List.filter_cons, hx]
    · rw [List.orderedInsert, if_neg hr]
      by_cases hy : y.expected_departure_time == k
      · by_cases hx : x.expected_departure_time == k
        · exfalso
          apply hr
          have hxk : x.expected_departure_time = k := by simpa using hx
          have hyk : y.expected_departure_time = k := by simpa using hy
          show x.expected_departure_time ≤ y.expected_departure_time
          rw [hxk, hyk]
        · simp [List.filter_cons, hy, hx, ih]
      · simp [List.filter_cons, hy, ih]

/-- Stability of the modelled sort: restricting the sorted output to any one
key value gives exactly the input's sublist with that key, in input order. -/
theorem filter_insertionSort_key (k : String) (l : List Departure) :
    (List.insertionSort depLe l).filter (fun d => d.expected_departure_time == k) =
      l.filter (fun d => d.expected_departure_time == k) := by
  induction l with
  | nil => rfl
  | cons a l ih =>
    rw [List.insertionSort, filter_orderedInsert_key]
    by_cases ha : a.expected_departure_time == k <;>
      simp [List.filter_cons, ha, ih]

/-- C8: the departure sort of `main.py` line 120 is an ascending sort by the
`expected_departure_time` string, a permutation of its input, idempotent, and
stable (equal-key elements keep their input order, stated via the key-wise
filter characterisation of stability). -/
theorem sort_stable_idempotent (xs : List Departure) :
    List.Sorted depLe (sortDepartures xs) ∧
    (sortDepartures xs).Perm xs ∧
    sortDepartures (sortDepartures xs) = sortDepartures xs ∧
    (∀ k, (sortDepartures xs).filter (fun d => d.expected_departure_time == k) =
      xs.filter (fun d => d.expected_departure_time == k)) :=
  ⟨List.sorted_insertionSort depLe xs, List.perm_insertionSort depLe xs,
   (List.sorted_insertionSort depLe xs).insertionSort_eq,
   fun k => filter_insertionSort_key k xs⟩

/-! ### The entry point -/

/-- Closed-form characterisation of one run of the script, shared by the
entry-point theorems: the run returns at the missing key or at the caught
`HTTPError` (printing a message, exit 0), completes the report and returns
at line 134 (exit 0), or lets any other fetch/parse exception escape `main`
uncaught (no printed line, exit 1) — never reaching the Slack block. -/
theorem mainRun_eq (env : Env) (f : FetchOutcome) :
    mainRun env f =
      if envFalsy env.idfApiKey then ⟨[apiKeyErrorLine], false, false, none, 0⟩
      else
        match f with
        | .connectionFailure m => ⟨[], true, false, some (.connectionFailure m), 1⟩
        | .httpError e => ⟨[httpErrorLine e], true, false, none, 0⟩
        | .invalidJson m => ⟨[], true, false, some (.invalidJson m), 1⟩
        | .body data =>
          match fetch_next_departures data with
          | .error e => ⟨[], true, false, some (.parseError e), 1⟩
          | .ok ds =>
            ⟨[format_departure_info (sortDepartures ds),
              countLine (filterDestination (sortDepartures ds)).length,
              format_departure_info (filterDestination (sortDepartures ds))],
             true, false, none, 0⟩ := by
  cases hk : envFalsy env.idfApiKey <;> cases f <;>
    simp [mainRun, mainBody, fetchDepartures, hk, printLine, Bind.bind, Except.bind,
      throw, throwThe, MonadExceptOf.throw, pure, Except.pure]
  all_goals rename_i data
  all_goals cases hp : fetch_next_departures data <;> simp [hp]

/-- C7 counterexample: with `IDF_API_KEY` unset the run prints the
human-readable message before any fetch is attempted, but the process exits
with status 0 — there is no non-zero/fatal termination on this path (`main`
just `return`s; `sys.exit` is never called). -/
theorem main_missing_key_exit_zero_counterexample :
    (mainRun ⟨none, none, none⟩ (.body (Json.obj []))).printed = [apiKeyErrorLine] ∧
    (mainRun ⟨none, none, none⟩ (.body (Json.obj []))).fetchAttempted = false ∧
    (mainRun ⟨none, none, none⟩ (.body (Json.obj []))).exitCode = 0 :=
  ⟨rfl, rfl, rfl⟩

/-- C7 as amended: with the API key missing the entry point prints the error
message and returns before any network call, exiting 0 — not non-zero; a
fetch failing with `requests.HTTPError` is caught, prints the HTTP error
message and also exits 0; any other transport failure (connection error,
invalid JSON body) or any exception of the parse (lines 39-86) escapes the
line-115 `except` clause uncaught, printing no message of the program's own
and exiting non-zero (status 1); otherwise the report is printed and the
exit status is 0. -/
theorem main_behavior (env : Env) (f : FetchOutcome) :
    mainRun env f =
      if envFalsy env.idfApiKey then ⟨[apiKeyErrorLine], false, false, none, 0⟩
      else
        match f with
        | .connectionFailure m => ⟨[], true, false, some (.connectionFailure m), 1⟩
        | .httpError e => ⟨[httpErrorLine e], true, false, none, 0⟩
        | .invalidJson m => ⟨[], true, false, some (.invalidJson m), 1⟩
        | .body data =>
          match fetch_next_departures data with
          | .error e => ⟨[], true, false, some (.parseError e), 1⟩
          | .ok ds =>
            ⟨[format_departure_info (sortDepartures ds),
              countLine (filterDestination (sortDepartures ds)).length,
              format_departure_info (filterDestination (sortDepartures ds))],
             true, false, none, 0⟩ :=
  mainRun_eq env f

/-- C9: the `return` at `main.py` line 134 is executed on every path that
completes the report, the two earlier returns and every uncaught exception
leave `main` before line 136, so the Slack delivery block of lines 136-162
is unreachable: no run of `main` ever invokes the notifier. -/
theorem notifier_unreachable (env : Env) (f : FetchOutcome) :
    (mainRun env f).notifierInvoked = false := by
  rw [mainRun_eq]
  cases hk : envFalsy env.idfApiKey <;> cases f <;> simp [hk]
  rename_i data
  cases hp : fetch_next_departures data <;> simp [hp]

end TransilienBot
